import Mathlib

/-!
Verification of the MIPS instruction decoder in `debugger.py`.

The decoder is a pure function `decode_instruction (word pc)` that maps a
32-bit instruction word together with the program counter at which it
resides to a tagged `DecodedInstr` value.  We embed it shallowly: the
Python dataclass `DecodedInstr(type, args)` becomes a structure holding a
category string and a list of heterogeneous arguments, and the chain of
conditionals becomes a chain of `if`s over the extracted bit fields.
Python integers are unbounded, so immediates and computed target addresses
are modelled as `Int` (the sign-extended immediate can be negative and the
computed branch target is never reduced modulo 2^32); the input word and
pc are nonnegative and modelled as `Nat`.
-/

/-- One element of the Python `args` tuple: a mnemonic string, an integer
(register index, immediate or address), the boolean link flag of a jump,
or Python's `None` used by the zero-comparison branches. -/
inductive Arg where
  | str : String → Arg
  | int : Int → Arg
  | bool : Bool → Arg
  | none : Arg
deriving DecidableEq, Repr

/-- The Python dataclass `DecodedInstr`: a category tag plus the
category-specific operand tuple. -/
structure DecodedInstr where
  type : String
  args : List Arg
deriving DecidableEq, Repr

/-- Primary opcode: bits 31-26 of the word (`(word >> 26) & 0x3F`). -/
def op_field (word : Nat) : Nat := (word >>> 26) &&& 0x3F

/-- `rs` register field: bits 25-21 (`(word >> 21) & 0x1F`). -/
def rs_field (word : Nat) : Nat := (word >>> 21) &&& 0x1F

/-- `rt` register field: bits 20-16 (`(word >> 16) & 0x1F`). -/
def rt_field (word : Nat) : Nat := (word >>> 16) &&& 0x1F

/-- `rd` register field: bits 15-11 (`(word >> 11) & 0x1F`). -/
def rd_field (word : Nat) : Nat := (word >>> 11) &&& 0x1F

/-- Shift amount field: bits 10-6 (`(word >> 6) & 0x1F`). -/
def shamt_field (word : Nat) : Nat := (word >>> 6) &&& 0x1F

/-- Secondary `funct` field: bits 5-0 (`word & 0x3F`). -/
def funct_field (word : Nat) : Nat := word &&& 0x3F

/-- 16-bit immediate field: bits 15-0 (`word & 0xFFFF`). -/
def imm_field (word : Nat) : Nat := word &&& 0xFFFF

/-- 26-bit jump target field: bits 25-0 (`word & 0x03FFFFFF`). -/
def jump_target_field (word : Nat) : Nat := word &&& 0x03FFFFFF

/-- Sign extension of the 16-bit immediate, as in the source:
`imm if imm < 0x8000 else imm - 0x10000`. -/
def imm_signed_of (imm : Nat) : Int :=
  if imm < 0x8000 then (imm : Int) else (imm : Int) - 0x10000

/-- Shallow embedding of `decode_instruction(word, pc)` from
`debugger.py`, branch for branch.  Addresses computed for branches use
Python's unbounded integers, hence `Int`; `imm_signed << 2` in Python is
multiplication by 4. -/
def decode_instruction (word : Nat) (pc : Nat) : DecodedInstr :=
  let op := op_field word
  if op = 0 then
    let rs := rs_field word
    let rt := rt_field word
    let rd := rd_field word
    let shamt := shamt_field word
    let funct := funct_field word
    if funct = 0x20 ∨ funct = 0x21 then
      ⟨"arith", [.str "ADD", .int rd, .int rs, .int rt]⟩
    else if funct = 0x22 ∨ funct = 0x23 then
      ⟨"arith", [.str "SUB", .int rd, .int rs, .int rt]⟩
    else if funct = 0x24 then
      ⟨"arith", [.str "AND", .int rd, .int rs, .int rt]⟩
    else if funct = 0x25 then
      ⟨"arith", [.str "OR", .int rd, .int rs, .int rt]⟩
    else if funct = 0x26 then
      ⟨"arith", [.str "XOR", .int rd, .int rs, .int rt]⟩
    else if funct = 0x27 then
      ⟨"arith", [.str "NOR", .int rd, .int rs, .int rt]⟩
    else if funct = 0x2A then
      ⟨"arith", [.str "SLT", .int rd, .int rs, .int rt]⟩
    else if funct = 0x2B then
      ⟨"arith", [.str "SLTU", .int rd, .int rs, .int rt]⟩
    else if funct = 0x00 then
      if rs = 0 ∧ rt = 0 ∧ rd = 0 ∧ shamt = 0 then
        ⟨"nop", []⟩
      else
        ⟨"shift", [.str "SLL", .int rd, .int rt, .int shamt]⟩
    else if funct = 0x02 then
      ⟨"shift", [.str "SRL", .int rd, .int rt, .int shamt]⟩
    else if funct = 0x03 then
      ⟨"shift", [.str "SRA", .int rd, .int rt, .int shamt]⟩
    else if funct = 0x08 then
      ⟨"jr", [.int rs]⟩
    else if funct = 0x09 then
      ⟨"jalr", [.int rd, .int rs]⟩
    else if funct = 0x10 then
      ⟨"mfhi", [.int rd]⟩
    else if funct = 0x12 then
      ⟨"mflo", [.int rd]⟩
    else if funct = 0x11 then
      ⟨"mthi", [.int rs]⟩
    else if funct = 0x13 then
      ⟨"mtlo", [.int rs]⟩
    else if funct = 0x18 then
      ⟨"mult", [.int rs, .int rt]⟩
    else if funct = 0x19 then
      ⟨"multu", [.int rs, .int rt]⟩
    else if funct = 0x1A then
      ⟨"div", [.int rs, .int rt]⟩
    else if funct = 0x1B then
      ⟨"divu", [.int rs, .int rt]⟩
    else
      ⟨"unknown", [.str "SPECIAL", .int funct, .int rs, .int rt, .int rd, .int shamt]⟩
  else if op = 0x02 ∨ op = 0x03 then
    let target := jump_target_field word
    let target_addr := ((pc + 4) &&& 0xF0000000) ||| (target <<< 2)
    if op = 0x02 then
      ⟨"jump", [.int target_addr, .bool false]⟩
    else
      ⟨"jump", [.int target_addr, .bool true]⟩
  else
    let rs := rs_field word
    let rt := rt_field word
    let imm := imm_field word
    let imm_signed := imm_signed_of imm
    if op = 0x04 then
      ⟨"branch", [.str "BEQ", .int rs, .int rt, .int ((pc : Int) + 4 + imm_signed * 4)]⟩
    else if op = 0x05 then
      ⟨"branch", [.str "BNE", .int rs, .int rt, .int ((pc : Int) + 4 + imm_signed * 4)]⟩
    else if op = 0x06 then
      ⟨"branch", [.str "BLEZ", .int rs, .none, .int ((pc : Int) + 4 + imm_signed * 4)]⟩
    else if op = 0x07 then
      ⟨"branch", [.str "BGTZ", .int rs, .none, .int ((pc : Int) + 4 + imm_signed * 4)]⟩
    else if op = 0x08 ∨ op = 0x09 then
      ⟨"imm", [.str "ADD", .int rt, .int rs, .int imm_signed]⟩
    else if op = 0x0A ∨ op = 0x0B then
      ⟨"imm", [.str (if op = 0x0A then "SLT" else "SLTU"), .int rt, .int rs, .int imm_signed]⟩
    else if op = 0x0C then
      ⟨"imm", [.str "AND", .int rt, .int rs, .int imm]⟩
    else if op = 0x0D then
      ⟨"imm", [.str "OR", .int rt, .int rs, .int imm]⟩
    else if op = 0x0E then
      ⟨"imm", [.str "XOR", .int rt, .int rs, .int imm]⟩
    else if op = 0x0F then
      ⟨"lui", [.int rt, .int imm]⟩
    else if op = 0x20 then
      ⟨"load", [.str "BYTE_S", .int rt, .int rs, .int imm_signed]⟩
    else if op = 0x24 then
      ⟨"load", [.str "BYTE_U", .int rt, .int rs, .int imm_signed]⟩
    else if op = 0x21 then
      ⟨"load", [.str "HALF_S", .int rt, .int rs, .int imm_signed]⟩
    else if op = 0x25 then
      ⟨"load", [.str "HALF_U", .int rt, .int rs, .int imm_signed]⟩
    else if op = 0x23 then
      ⟨"load", [.str "WORD", .int rt, .int rs, .int imm_signed]⟩
    else if op = 0x28 then
      ⟨"store", [.str "BYTE", .int rt, .int rs, .int imm_signed]⟩
    else if op = 0x29 then
      ⟨"store", [.str "HALF", .int rt, .int rs, .int imm_signed]⟩
    else if op = 0x2B then
      ⟨"store", [.str "WORD", .int rt, .int rs, .int imm_signed]⟩
    else
      ⟨"unknown", [.str "OP", .int op, .int rs, .int rt, .int imm_signed]⟩

/-- The dispatch chain of `decode_instruction` with the extracted bit
fields passed as parameters (the Python locals `op`, `rs`, `rt`, `rd`,
`shamt`, `funct`, `imm`, `target` lambda-lifted).  Definitionally equal
to `decode_instruction` once the fields are extracted; used to reason
about the chain with the fields as atomic variables. -/
def decode_fields (op rs rt rd shamt funct imm target pc : Nat) : DecodedInstr :=
  if op = 0 then
    if funct = 0x20 ∨ funct = 0x21 then
      ⟨"arith", [.str "ADD", .int rd, .int rs, .int rt]⟩
    else if funct = 0x22 ∨ funct = 0x23 then
      ⟨"arith", [.str "SUB", .int rd, .int rs, .int rt]⟩
    else if funct = 0x24 then
      ⟨"arith", [.str "AND", .int rd, .int rs, .int rt]⟩
    else if funct = 0x25 then
      ⟨"arith", [.str "OR", .int rd, .int rs, .int rt]⟩
    else if funct = 0x26 then
      ⟨"arith", [.str "XOR", .int rd, .int rs, .int rt]⟩
    else if funct = 0x27 then
      ⟨"arith", [.str "NOR", .int rd, .int rs, .int rt]⟩
    else if funct = 0x2A then
      ⟨"arith", [.str "SLT", .int rd, .int rs, .int rt]⟩
    else if funct = 0x2B then
      ⟨"arith", [.str "SLTU", .int rd, .int rs, .int rt]⟩
    else if funct = 0x00 then
      if rs = 0 ∧ rt = 0 ∧ rd = 0 ∧ shamt = 0 then
        ⟨"nop", []⟩
      else
        ⟨"shift", [.str "SLL", .int rd, .int rt, .int shamt]⟩
    else if funct = 0x02 then
      ⟨"shift", [.str "SRL", .int rd, .int rt, .int shamt]⟩
    else if funct = 0x03 then
      ⟨"shift", [.str "SRA", .int rd, .int rt, .int shamt]⟩
    else if funct = 0x08 then
      ⟨"jr", [.int rs]⟩
    else if funct = 0x09 then
      ⟨"jalr", [.int rd, .int rs]⟩
    else if funct = 0x10 then
      ⟨"mfhi", [.int rd]⟩
    else if funct = 0x12 then
      ⟨"mflo", [.int rd]⟩
    else if funct = 0x11 then
      ⟨"mthi", [.int rs]⟩
    else if funct = 0x13 then
      ⟨"mtlo", [.int rs]⟩
    else if funct = 0x18 then
      ⟨"mult", [.int rs, .int rt]⟩
    else if funct = 0x19 then
      ⟨"multu", [.int rs, .int rt]⟩
    else if funct = 0x1A then
      ⟨"div", [.int rs, .int rt]⟩
    else if funct = 0x1B then
      ⟨"divu", [.int rs, .int rt]⟩
    else
      ⟨"unknown", [.str "SPECIAL", .int funct, .int rs, .int rt, .int rd, .int shamt]⟩
  else if op = 0x02 ∨ op = 0x03 then
    let target_addr := ((pc + 4) &&& 0xF0000000) ||| (target <<< 2)
    if op = 0x02 then
      ⟨"jump", [.int target_addr, .bool false]⟩
    else
      ⟨"jump", [.int target_addr, .bool true]⟩
  else
    let imm_signed := imm_signed_of imm
    if op = 0x04 then
      ⟨"branch", [.str "BEQ", .int rs, .int rt, .int ((pc : Int) + 4 + imm_signed * 4)]⟩
    else if op = 0x05 then
      ⟨"branch", [.str "BNE", .int rs, .int rt, .int ((pc : Int) + 4 + imm_signed * 4)]⟩
    else if op = 0x06 then
      ⟨"branch", [.str "BLEZ", .int rs, .none, .int ((pc : Int) + 4 + imm_signed * 4)]⟩
    else if op = 0x07 then
      ⟨"branch", [.str "BGTZ", .int rs, .none, .int ((pc : Int) + 4 + imm_signed * 4)]⟩
    else if op = 0x08 ∨ op = 0x09 then
      ⟨"imm", [.str "ADD", .int rt, .int rs, .int imm_signed]⟩
    else if op = 0x0A ∨ op = 0x0B then
      ⟨"imm", [.str (if op = 0x0A then "SLT" else "SLTU"), .int rt, .int rs, .int imm_signed]⟩
    else if op = 0x0C then
      ⟨"imm", [.str "AND", .int rt, .int rs, .int imm]⟩
    else if op = 0x0D then
      ⟨"imm", [.str "OR", .int rt, .int rs, .int imm]⟩
    else if op = 0x0E then
      ⟨"imm", [.str "XOR", .int rt, .int rs, .int imm]⟩
    else if op = 0x0F then
      ⟨"lui", [.int rt, .int imm]⟩
    else if op = 0x20 then
      ⟨"load", [.str "BYTE_S", .int rt, .int rs, .int imm_signed]⟩
    else if op = 0x24 then
      ⟨"load", [.str "BYTE_U", .int rt, .int rs, .int imm_signed]⟩
    else if op = 0x21 then
      ⟨"load", [.str "HALF_S", .int rt, .int rs, .int imm_signed]⟩
    else if op = 0x25 then
      ⟨"load", [.str "HALF_U", .int rt, .int rs, .int imm_signed]⟩
    else if op = 0x23 then
      ⟨"load", [.str "WORD", .int rt, .int rs, .int imm_signed]⟩
    else if op = 0x28 then
      ⟨"store", [.str "BYTE", .int rt, .int rs, .int imm_signed]⟩
    else if op = 0x29 then
      ⟨"store", [.str "HALF", .int rt, .int rs, .int imm_signed]⟩
    else if op = 0x2B then
      ⟨"store", [.str "WORD", .int rt, .int rs, .int imm_signed]⟩
    else
      ⟨"unknown", [.str "OP", .int op, .int rs, .int rt, .int imm_signed]⟩

/-- The funct values recognised inside the register-form (opcode-0) branch. -/
def known_functs : List Nat :=
  [0x20, 0x21, 0x22, 0x23, 0x24, 0x25, 0x26, 0x27, 0x2A, 0x2B,
   0x00, 0x02, 0x03, 0x08, 0x09, 0x10, 0x11, 0x12, 0x13,
   0x18, 0x19, 0x1A, 0x1B]

/-- The primary opcodes the decoder recognises. -/
def known_ops : List Nat :=
  [0x00, 0x02, 0x03, 0x04, 0x05, 0x06, 0x07, 0x08, 0x09,
   0x0A, 0x0B, 0x0C, 0x0D, 0x0E, 0x0F,
   0x20, 0x21, 0x23, 0x24, 0x25, 0x28, 0x29, 0x2B]

/-- The eight load/store primary opcodes, in source order. -/
def load_store_ops : List Nat := [0x20, 0x24, 0x21, 0x25, 0x23, 0x28, 0x29, 0x2B]

/-- The three store primary opcodes. -/
def store_ops : List Nat := [0x28, 0x29, 0x2B]

/-- Category assigned by the decoder's load/store arm: `"store"` for
SB/SH/SW, `"load"` for the five load opcodes. -/
def ls_category (op : Nat) : String :=
  if op = 0x28 ∨ op = 0x29 ∨ op = 0x2B then "store" else "load"

/-- Width/signedness tag assigned by the decoder's load/store arm. -/
def ls_tag (op : Nat) : String :=
  if op = 0x20 then "BYTE_S"
  else if op = 0x24 then "BYTE_U"
  else if op = 0x21 then "HALF_S"
  else if op = 0x25 then "HALF_U"
  else if op = 0x23 then "WORD"
  else if op = 0x28 then "BYTE"
  else if op = 0x29 then "HALF"
  else if op = 0x2B then "WORD"
  else ""

/-- `decode_instruction` is the field-parameterized chain applied to the
extracted fields (definitional: both sides zeta-reduce to the same term). -/
theorem decode_instruction_eq_fields (w pc : Nat) :
    decode_instruction w pc =
      decode_fields (op_field w) (rs_field w) (rt_field w) (rd_field w)
        (shamt_field w) (funct_field w) (imm_field w) (jump_target_field w) pc := rfl

/-- The dispatch chain lands in the `"unknown"` category exactly for an
unmatched funct under opcode 0 or an unmatched primary opcode. -/
theorem decode_fields_unknown_iff (op rs rt rd shamt funct imm target pc : Nat) :
    (decode_fields op rs rt rd shamt funct imm target pc).type = "unknown" ↔
      (op = 0 ∧ funct ∉ known_functs) ∨ op ∉ known_ops := by
  by_cases h0 : op = 0
  · subst h0
    have hrhs : (((0 : Nat) = 0 ∧ funct ∉ known_functs) ∨ (0 : Nat) ∉ known_ops) ↔
        funct ∉ known_functs := by
      simp [known_ops]
    rw [hrhs]
    by_cases hf : funct ∈ known_functs
    · refine iff_of_false ?_ (by simpa using hf)
      simp only [known_functs, List.mem_cons, List.not_mem_nil, or_false] at hf
      rcases hf with rfl | rfl | rfl | rfl | rfl | rfl | rfl | rfl | rfl | rfl | rfl |
        rfl | rfl | rfl | rfl | rfl | rfl | rfl | rfl | rfl | rfl | rfl | rfl
      all_goals
        first
        | (simp [decode_fields]; done)
        | (simp [decode_fields]
           split <;> simp)
    · refine iff_of_true ?_ hf
      simp only [known_functs, List.mem_cons, List.not_mem_nil, or_false] at hf
      push_neg at hf
      simp only [decode_fields,
        if_neg (by omega : ¬(funct = 0x20 ∨ funct = 0x21)),
        if_neg (by omega : ¬(funct = 0x22 ∨ funct = 0x23)),
        if_neg (by omega : ¬funct = 0x24), if_neg (by omega : ¬funct = 0x25),
        if_neg (by omega : ¬funct = 0x26), if_neg (by omega : ¬funct = 0x27),
        if_neg (by omega : ¬funct = 0x2A), if_neg (by omega : ¬funct = 0x2B),
        if_neg (by omega : ¬funct = 0x00), if_neg (by omega : ¬funct = 0x02),
        if_neg (by omega : ¬funct = 0x03), if_neg (by omega : ¬funct = 0x08),
        if_neg (by omega : ¬funct = 0x09), if_neg (by omega : ¬funct = 0x10),
        if_neg (by omega : ¬funct = 0x12), if_neg (by omega : ¬funct = 0x11),
        if_neg (by omega : ¬funct = 0x13), if_neg (by omega : ¬funct = 0x18),
        if_neg (by omega : ¬funct = 0x19), if_neg (by omega : ¬funct = 0x1A),
        if_neg (by omega : ¬funct = 0x1B)]
      simp
  · have hrhs : ((op = 0 ∧ funct ∉ known_functs) ∨ op ∉ known_ops) ↔
        op ∉ known_ops := by
      simp [h0]
    rw [hrhs]
    by_cases ho : op ∈ known_ops
    · refine iff_of_false ?_ (by simpa using ho)
      simp only [known_ops, List.mem_cons, List.not_mem_nil, or_false] at ho
      rcases ho with rfl | rfl | rfl | rfl | rfl | rfl | rfl | rfl | rfl | rfl | rfl |
        rfl | rfl | rfl | rfl | rfl | rfl | rfl | rfl | rfl | rfl | rfl | rfl
      all_goals
        first
        | (exact absurd rfl h0)
        | simp [decode_fields]
    · refine iff_of_true ?_ ho
      simp only [known_ops, List.mem_cons, List.not_mem_nil, or_false] at ho
      push_neg at ho
      simp only [decode_fields, if_neg h0,
        if_neg (by omega : ¬(op = 0x02 ∨ op = 0x03)),
        if_neg (by omega : ¬op = 0x04), if_neg (by omega : ¬op = 0x05),
        if_neg (by omega : ¬op = 0x06), if_neg (by omega : ¬op = 0x07),
        if_neg (by omega : ¬(op = 0x08 ∨ op = 0x09)),
        if_neg (by omega : ¬(op = 0x0A ∨ op = 0x0B)),
        if_neg (by omega : ¬op = 0x0C), if_neg (by omega : ¬op = 0x0D),
        if_neg (by omega : ¬op = 0x0E), if_neg (by omega : ¬op = 0x0F),
        if_neg (by omega : ¬op = 0x20), if_neg (by omega : ¬op = 0x24),
        if_neg (by omega : ¬op = 0x21), if_neg (by omega : ¬op = 0x25),
        if_neg (by omega : ¬op = 0x23), if_neg (by omega : ¬op = 0x28),
        if_neg (by omega : ¬op = 0x29), if_neg (by omega : ¬op = 0x2B)]

/-- The dispatch chain ignores the program counter outside the jump-type
(`0x02`, `0x03`) and branch (`0x04`-`0x07`) opcodes. -/
theorem decode_fields_pc_independent (op rs rt rd shamt funct imm target pc1 pc2 : Nat)
    (h2 : op ≠ 0x02) (h3 : op ≠ 0x03) (h4 : op ≠ 0x04) (h5 : op ≠ 0x05)
    (h6 : op ≠ 0x06) (h7 : op ≠ 0x07) :
    decode_fields op rs rt rd shamt funct imm target pc1 =
      decode_fields op rs rt rd shamt funct imm target pc2 := by
  by_cases h0 : op = 0
  · subst h0
    rfl
  · simp only [decode_fields, if_neg h0,
      if_neg (show ¬(op = 0x02 ∨ op = 0x03) by omega),
      if_neg h4, if_neg h5, if_neg h6, if_neg h7]

/-- C3 counterexample. The claim asserts that a jump word with
target field `0x10` decoded at `pc = 0x0FFFFFFC` yields target address
`0x00000040`.  It does not: `pc + 4 = 0x10000000`, so the segment mask
keeps `0x10000000` and the code produces `0x10000040`.  The word
`0x08000010` is a J instruction with target field `0x10`. -/
theorem decode_jump_segment_counterexample :
    (decode_instruction 0x08000010 0x0FFFFFFC).args.head? =
        some (Arg.int 0x10000040) ∧
      (0x10000040 : Int) ≠ 0x00000040 ∧
      (decode_instruction 0x0C000010 0x0FFFFFFC).args.head? =
        some (Arg.int 0x10000040) := by
  refine ⟨by decide, by decide, by decide⟩

/-- C3 amended. Decoding a jump-type word whose 26-bit target
field is `0x0000010` at `pc = 0x0FFFFFFC` yields the target address
`((0x0FFFFFFC + 4) & 0xF0000000) | (0x10 << 2) = 0x10000040` — the
segment nibble comes from the next instruction's address `0x10000000`,
whose bits 31-28 survive the mask.  Checked for both J (`0x08000010`)
and JAL (`0x0C000010`). -/
theorem decode_jump_segment_example :
    decode_instruction 0x08000010 0x0FFFFFFC =
        ⟨"jump", [.int 0x10000040, .bool false]⟩ ∧
      decode_instruction 0x0C000010 0x0FFFFFFC =
        ⟨"jump", [.int 0x10000040, .bool true]⟩ := by
  refine ⟨by decide, by decide⟩

/-- C2. For every word whose primary opcode is `0x02` (J) or `0x03`
(JAL) and every `pc`, the decoded jump's target address is
`((pc + 4) & 0xF0000000) | (jump_target << 2)` and the link flag is set
exactly for JAL. -/
theorem decode_jump_target_eq (w pc : Nat)
    (h : op_field w = 0x02 ∨ op_field w = 0x03) :
    decode_instruction w pc =
      ⟨"jump", [.int (((pc + 4) &&& 0xF0000000) ||| (jump_target_field w <<< 2)),
                .bool (op_field w == 0x03)]⟩ := by
  rcases h with h | h <;> simp [decode_instruction, h]

/-- Witness for `decode_jump_target_eq`: the JAL word `0x0C000010` at
`pc = 0`. -/
theorem decode_jump_target_eq_witness :
    decode_instruction 0x0C000010 0 = ⟨"jump", [.int 0x40, .bool true]⟩ := by
  exact decode_jump_target_eq 0x0C000010 0 (Or.inr (by decide))

/-- C4. For every word whose primary opcode is a branch opcode
(`0x04` BEQ, `0x05` BNE, `0x06` BLEZ, `0x07` BGTZ) and every `pc`, the
decoded branch's target address equals
`pc + 4 + sign_extend_16 immediate * 4` (Python's `imm_signed << 2`),
with the zero-comparison branches carrying `None` as second operand. -/
theorem decode_branch_target_eq (w pc : Nat) :
    (op_field w = 0x04 → decode_instruction w pc =
      ⟨"branch", [.str "BEQ", .int (rs_field w), .int (rt_field w),
                  .int ((pc : Int) + 4 + imm_signed_of (imm_field w) * 4)]⟩) ∧
    (op_field w = 0x05 → decode_instruction w pc =
      ⟨"branch", [.str "BNE", .int (rs_field w), .int (rt_field w),
                  .int ((pc : Int) + 4 + imm_signed_of (imm_field w) * 4)]⟩) ∧
    (op_field w = 0x06 → decode_instruction w pc =
      ⟨"branch", [.str "BLEZ", .int (rs_field w), .none,
                  .int ((pc : Int) + 4 + imm_signed_of (imm_field w) * 4)]⟩) ∧
    (op_field w = 0x07 → decode_instruction w pc =
      ⟨"branch", [.str "BGTZ", .int (rs_field w), .none,
                  .int ((pc : Int) + 4 + imm_signed_of (imm_field w) * 4)]⟩) := by
  refine ⟨fun h => ?_, fun h => ?_, fun h => ?_, fun h => ?_⟩ <;>
    simp [decode_instruction, h]

/-- Witness for `decode_branch_target_eq`: the BEQ word with `rs = 1`,
`rt = 2`, `imm = 4` (word `0x10220004`) at `pc = 0x1000` decodes to a
branch with target `0x1000 + 4 + (4 << 2) = 0x1014`. -/
theorem decode_branch_target_eq_witness :
    decode_instruction 0x10220004 0x1000 =
      ⟨"branch", [.str "BEQ", .int 1, .int 2, .int 0x1014]⟩ := by
  exact (decode_branch_target_eq 0x10220004 0x1000).1 (by decide)

/-- C5. `decode_instruction 0 pc` is the no-operation category with
an empty payload for every `pc`; more generally, a register-form word
with `funct = 0` (SLL) decodes to no-operation exactly when `rs`, `rt`,
`rd` and `shamt` are all zero, and to an SLL shift otherwise. -/
theorem decode_nop_special_case :
    (∀ pc, decode_instruction 0 pc = ⟨"nop", []⟩) ∧
    (∀ w pc, op_field w = 0 → funct_field w = 0 →
      decode_instruction w pc =
        if rs_field w = 0 ∧ rt_field w = 0 ∧ rd_field w = 0 ∧ shamt_field w = 0
        then ⟨"nop", []⟩
        else ⟨"shift", [.str "SLL", .int (rd_field w), .int (rt_field w),
                        .int (shamt_field w)]⟩) := by
  constructor
  · intro pc
    rfl
  · intro w pc h1 h2
    simp [decode_instruction, h1, h2]

/-- Witness for `decode_nop_special_case`: the all-zero word decodes to
no-operation, and the word `0x00010840` (`funct = 0`, `rt = rd = shamt
= 1`) decodes to a genuine SLL shift. -/
theorem decode_nop_special_case_witness :
    decode_instruction 0 0x1000 = ⟨"nop", []⟩ ∧
      decode_instruction 0x00010840 0 =
        ⟨"shift", [.str "SLL", .int 1, .int 1, .int 1]⟩ := by
  refine ⟨decode_nop_special_case.1 0x1000,
    decode_nop_special_case.2 0x00010840 0 (by decide) (by decide)⟩

/-- C6. For every word with primary opcode `0x0B` (SLTIU) and every
`pc`, the constant in the decoded immediate-arithmetic payload is the
sign-extended 16-bit immediate — in particular `imm - 0x10000` whenever
bit 15 of the immediate is set — not the zero-extended one. -/
theorem decode_sltiu_sign_extended (w pc : Nat) (h : op_field w = 0x0B) :
    decode_instruction w pc =
        ⟨"imm", [.str "SLTU", .int (rt_field w), .int (rs_field w),
                 .int (imm_signed_of (imm_field w))]⟩ ∧
      (0x8000 ≤ imm_field w →
        imm_signed_of (imm_field w) = (imm_field w : Int) - 0x10000) := by
  constructor
  · simp [decode_instruction, h]
  · intro hge
    rw [imm_signed_of, if_neg (by omega : ¬ imm_field w < 0x8000)]

/-- Witness for `decode_sltiu_sign_extended`: the SLTIU word
`0x2C00FFFF` carries immediate `0xFFFF`, whose sign extension is `-1`. -/
theorem decode_sltiu_sign_extended_witness :
    decode_instruction 0x2C00FFFF 0 =
        ⟨"imm", [.str "SLTU", .int 0, .int 0, .int (-1)]⟩ ∧
      (0x8000 : Nat) ≤ 0xFFFF := by
  exact ⟨(decode_sltiu_sign_extended 0x2C00FFFF 0 (by decide)).1, by decide⟩

/-- C7. Two register-form words, one with `funct = 0x20` (trapping
ADD) and one with `funct = 0x21` (non-trapping ADDU), that agree on
their `rs`, `rt` and `rd` fields decode to the same arithmetic-ADD
payload, at every `pc`. -/
theorem decode_add_addu_collapse (w1 w2 pc : Nat)
    (h1 : op_field w1 = 0) (h2 : op_field w2 = 0)
    (f1 : funct_field w1 = 0x20) (f2 : funct_field w2 = 0x21)
    (hrs : rs_field w1 = rs_field w2) (hrt : rt_field w1 = rt_field w2)
    (hrd : rd_field w1 = rd_field w2) :
    decode_instruction w1 pc = decode_instruction w2 pc ∧
      decode_instruction w1 pc =
        ⟨"arith", [.str "ADD", .int (rd_field w1), .int (rs_field w1),
                   .int (rt_field w1)]⟩ := by
  constructor
  · simp [decode_instruction, h1, h2, f1, f2, hrs, hrt, hrd]
  · simp [decode_instruction, h1, f1]

/-- Witness for `decode_add_addu_collapse`: `ADD r1, r2, r3`
(`0x00430820`) and `ADDU r1, r2, r3` (`0x00430821`). -/
theorem decode_add_addu_collapse_witness :
    decode_instruction 0x00430820 0 = decode_instruction 0x00430821 0 ∧
      decode_instruction 0x00430820 0 =
        ⟨"arith", [.str "ADD", .int 1, .int 2, .int 3]⟩ := by
  exact decode_add_addu_collapse 0x00430820 0x00430821 0 (by decide) (by decide)
    (by decide) (by decide) (by decide) (by decide) (by decide)

/-- C10. Branch target addresses are not reduced modulo `2^32`:
decoding the BEQ word `0x10008000` (immediate `0x8000`, sign-extended
to `-0x8000`) at `pc = 0` yields the negative target
`0 + 4 + (-0x8000) * 4 = -131068`, outside the 32-bit range. -/
theorem decode_branch_target_negative :
    decode_instruction 0x10008000 0 =
        ⟨"branch", [.str "BEQ", .int 0, .int 0, .int (-131068)]⟩ ∧
      (-131068 : Int) < 0 := by
  refine ⟨by decide, by decide⟩

/-- C8. Every word with one of the eight load/store primary opcodes
decodes to the load or store category with the width/signedness tag of
`ls_tag`; the eight (category, tag) combinations are pairwise distinct;
and the store tags are the bare width names, carrying no
signedness marker. -/
theorem decode_load_store_coverage :
    (∀ w pc, op_field w ∈ load_store_ops →
      decode_instruction w pc =
        ⟨ls_category (op_field w),
         [.str (ls_tag (op_field w)), .int (rt_field w), .int (rs_field w),
          .int (imm_signed_of (imm_field w))]⟩) ∧
      (load_store_ops.map fun o => (ls_category o, ls_tag o)).Pairwise (· ≠ ·) ∧
      (∀ o ∈ store_ops, ls_category o = "store" ∧
        ls_tag o ∈ ["BYTE", "HALF", "WORD"]) := by
  refine ⟨?_, by decide, by decide⟩
  intro w pc h
  simp only [load_store_ops, List.mem_cons, List.not_mem_nil, or_false] at h
  rcases h with h | h | h | h | h | h | h | h <;>
    simp [decode_instruction, ls_category, ls_tag, h]

/-- Witness for `decode_load_store_coverage`: the LB word `0x80000000`
and the SB word `0xA0000000` at `pc = 0`. -/
theorem decode_load_store_coverage_witness :
    decode_instruction 0x80000000 0 =
        ⟨"load", [.str "BYTE_S", .int 0, .int 0, .int 0]⟩ ∧
      decode_instruction 0xA0000000 0 =
        ⟨"store", [.str "BYTE", .int 0, .int 0, .int 0]⟩ := by
  exact ⟨decode_load_store_coverage.1 0x80000000 0 (by decide),
    decode_load_store_coverage.1 0xA0000000 0 (by decide)⟩

/-- C1. Decoding is total by construction (`decode_instruction` is a
Lean function into `DecodedInstr`), and an input falls into the
`"unknown"` (unrecognized) category exactly when it matches no known
register-form funct and no known primary opcode: an unmatched funct
under opcode 0, or an unmatched primary opcode. -/
theorem decode_unknown_iff (w pc : Nat) :
    (decode_instruction w pc).type = "unknown" ↔
      (op_field w = 0 ∧ funct_field w ∉ known_functs) ∨
        op_field w ∉ known_ops := by
  rw [decode_instruction_eq_fields]
  exact decode_fields_unknown_iff (op_field w) (rs_field w) (rt_field w)
    (rd_field w) (shamt_field w) (funct_field w) (imm_field w)
    (jump_target_field w) pc

/-- C9. The program counter influences only branch and jump target
addresses: for every word whose primary opcode is neither jump-type
(`0x02`, `0x03`) nor a branch (`0x04`-`0x07`), decoding at any two
program counters gives the same result. -/
theorem decode_pc_independent (w pc1 pc2 : Nat)
    (h : op_field w ∉ [0x02, 0x03, 0x04, 0x05, 0x06, 0x07]) :
    decode_instruction w pc1 = decode_instruction w pc2 := by
  simp only [List.mem_cons, List.not_mem_nil, or_false] at h
  push_neg at h
  obtain ⟨h2, h3, h4, h5, h6, h7⟩ := h
  rw [decode_instruction_eq_fields, decode_instruction_eq_fields]
  exact decode_fields_pc_independent (op_field w) (rs_field w) (rt_field w)
    (rd_field w) (shamt_field w) (funct_field w) (imm_field w)
    (jump_target_field w) pc1 pc2 h2 h3 h4 h5 h6 h7

/-- Witness for `decode_pc_independent`: the ADD word `0x00430820`
decodes identically at `pc = 0` and `pc = 0x12345678`. -/
theorem decode_pc_independent_witness :
    decode_instruction 0x00430820 0 = decode_instruction 0x00430820 0x12345678 := by
  exact decode_pc_independent 0x00430820 0 0x12345678 (by decide)
